import Mathlib

/-!
Verification of the `ipset_listener` daemon (`src/main.rs`) against its
natural-language specification.  The Rust source is shallowly embedded:
byte streams become `List Nat`, strings become `List Char`, the external
`ipset` / `ip` tool invocations become an explicit `World` of outcomes,
and the mutex/condvar admission gate becomes a step relation on a state.
-/

/-- Whitespace predicate of Rust `char::is_whitespace`, restricted to the
code points a `u8 as char` cast can produce (the only characters a line
buffer of this program ever holds): TAB, LF, VT, FF, CR, SPACE, NEL, NBSP. -/
def isRustWhitespace (c : Char) : Bool :=
  c.toNat = 9 || c.toNat = 10 || c.toNat = 11 || c.toNat = 12 ||
  c.toNat = 13 || c.toNat = 32 || c.toNat = 133 || c.toNat = 160

/-- Model of Rust `str::trim_right` (trim trailing whitespace). -/
def rustTrimRight (l : List Char) : List Char :=
  (l.reverse.dropWhile isRustWhitespace).reverse

/-- Model of Rust `str::trim` (trim whitespace at both ends),
as used on each accumulated line in `handle_client`. -/
def rustTrim (l : List Char) : List Char :=
  (rustTrimRight l).dropWhile isRustWhitespace

/-- The character class `[a-f\d]` of `RE_MAC_PATTERN` (`src/main.rs:29-31`).
For characters below U+0100 — the only ones reachable from a `u8 as char`
cast — the Unicode class `\d` coincides with the ASCII digits. -/
def isMacHexDigit (c : Char) : Bool :=
  c.isDigit || ('a' ≤ c && c ≤ 'f')

/-- One repetition of `([a-f\d]{1,2}:)` under leftmost-first (backtracking)
semantics: greedily two hex digits then a colon, else one hex digit then a
colon.  The two alternatives are mutually exclusive on any fixed input, so
no cross-group backtracking can arise.  Returns the consumed text and the
remaining input. -/
def macGroup : List Char → Option (List Char × List Char)
  | a :: b :: rest =>
    if isMacHexDigit a then
      if isMacHexDigit b then
        match rest with
        | ':' :: rest2 => some ([a, b, ':'], rest2)
        | _ => none
      else if b = ':' then some ([a, ':'], rest)
      else none
    else none
  | _ => none

/-- The final `[a-f\d]{1,2}` of the MAC pattern: greedy, two digits when
available, otherwise one. -/
def macTail : List Char → Option (List Char)
  | a :: b :: _ =>
    if isMacHexDigit a then
      some (if isMacHexDigit b then [a, b] else [a])
    else none
  | [a] => if isMacHexDigit a then some [a] else none
  | [] => none

/-- Attempt to match `([a-f\d]{1,2}:){5}[a-f\d]{1,2}` anchored at the head
of the input; returns the matched text (the `mac` capture group). -/
def macMatchAt (s : List Char) : Option (List Char) := do
  let (g1, s1) ← macGroup s
  let (g2, s2) ← macGroup s1
  let (g3, s3) ← macGroup s2
  let (g4, s4) ← macGroup s3
  let (g5, s5) ← macGroup s4
  let t ← macTail s5
  pure (g1 ++ g2 ++ g3 ++ g4 ++ g5 ++ t)

/-- Unanchored search of `RE_MAC_PATTERN` (`re_mac.captures`): the match at
the leftmost possible starting position, as the Rust regex engine finds it.
Note there is no `(?i)` flag: matching is case-sensitive. -/
def firstMacMatch : List Char → Option (List Char)
  | [] => none
  | c :: rest =>
    match macMatchAt (c :: rest) with
    | some m => some m
    | none => firstMacMatch rest

/-- Model of `re_action`, the pattern `^(?P<action>[:alpha:]) *(?P<arg>.*)$`
(`src/main.rs:167-169`).  The program only compiles against regex 0.1.x —
`capt.name("action").unwrap_or("")` at `src/main.rs:179-180` requires
`Captures::name` to return an optional string slice, an API regex 0.2
changed — and under regex 0.1.x a bare `[:alpha:]` is the POSIX ASCII
alphabetic class `[A-Za-z]` (only from 0.2 on is it read as a literal
bracket expression).  So a line matches exactly when its first character
is an ASCII letter; the greedy ` *` then swallows the following spaces
and `arg` is the rest.  `.` does not match a newline and `$` is
end-of-haystack, so a line with an embedded newline past position 0 fails
to match. -/
def parseAction (line : List Char) : Option (Char × List Char) :=
  match line with
  | [] => none
  | c :: rest =>
    if c.isAlpha && !(rest.contains '\n') then
      some (c, rest.dropWhile (· = ' '))
    else none

/-- Split a character list on a separator character (like Rust
`str::split`): `n` separators yield `n + 1` parts. -/
def splitOnChar (sep : Char) : List Char → List (List Char)
  | [] => [[]]
  | c :: rest =>
    match splitOnChar sep rest with
    | [] => [[]]
    | part :: parts =>
      if c = sep then [] :: part :: parts else (c :: part) :: parts

/-- Split at the first occurrence of `::`, when there is one. -/
def splitDoubleColon : List Char → Option (List Char × List Char)
  | [] => none
  | ':' :: ':' :: rest => some ([], rest)
  | c :: rest => (splitDoubleColon rest).map (fun p => (c :: p.1, p.2))

/-- One decimal octet of an IPv4 literal, per the Rust std parser: one to
three ASCII digits, no leading zero, value at most 255. -/
def parseDecimalOctet (s : List Char) : Option Nat :=
  if s ≠ [] && s.all Char.isDigit && s.length ≤ 3
      && (s.length = 1 || s.head? ≠ some '0') then
    let v := s.foldl (fun acc c => acc * 10 + (c.toNat - 48)) 0
    if v ≤ 255 then some v else none
  else none

/-- Verdict of the Rust std IPv4 literal parser: exactly four dot-separated
decimal octets, nothing else. -/
def isIpv4 (s : List Char) : Bool :=
  match (splitOnChar '.' s).map parseDecimalOctet with
  | [some _, some _, some _, some _] => true
  | _ => false

/-- A hexadecimal IPv6 group: one to four hex digits (either case). -/
def validHexGroup (s : List Char) : Bool :=
  !s.isEmpty && s.length ≤ 4
    && s.all (fun c => c.isDigit || ('a' ≤ c && c ≤ 'f') || ('A' ≤ c && c ≤ 'F'))

/-- Count the 16-bit groups contributed by a colon-separated part list in
which only the final part may be an embedded IPv4 literal (worth two
groups); `none` when some part is invalid. -/
def groupCount : List (List Char) → Option Nat
  | [] => some 0
  | [x] =>
    if validHexGroup x then some 1
    else if isIpv4 x then some 2 else none
  | x :: rest =>
    if validHexGroup x then (groupCount rest).map (· + 1) else none

/-- Groups of the part list before a `::`: hex groups only (Rust rejects
an embedded IPv4 before the `::`). -/
def hexOnlyCount (parts : List (List Char)) : Option Nat :=
  if parts.all validHexGroup then some parts.length else none

/-- Verdict of the Rust std IPv6 literal parser.  Without `::`, exactly
eight groups (an embedded trailing IPv4 counting as two).  With one `::`,
the head groups are hex-only, the tail may end in an embedded IPv4, and
head + tail occupy at most seven groups. -/
def isIpv6 (s : List Char) : Bool :=
  match splitDoubleColon s with
  | none => groupCount (splitOnChar ':' s) = some 8
  | some (h, t) =>
    let headParts := if h.isEmpty then [] else splitOnChar ':' h
    let tailParts := if t.isEmpty then [] else splitOnChar ':' t
    match hexOnlyCount headParts, groupCount tailParts with
    | some hc, some tc => hc + tc ≤ 7
    | _, _ => false

/-- `is_ip_addr` (`src/main.rs:36-41`): `s.parse::<IpAddr>()` succeeds,
i.e. the string is a valid IPv4 or IPv6 literal. -/
def is_ip_addr (s : List Char) : Bool :=
  isIpv4 s || isIpv6 s

/-- Outcome of one external `Command::output()` invocation: the spawn
itself may fail (with an error description), or the process runs and
exits with a success flag, captured stdout and captured stderr. -/
inductive CmdOutcome where
  | spawnFailure (desc : List Char)
  | exited (success : Bool) (stdout stderr : List Char)
deriving DecidableEq

/-- Did the invocation run and exit successfully? -/
def CmdOutcome.ok : CmdOutcome → Bool
  | .exited true _ _ => true
  | _ => false

/-- Modelled from the spec: the configuration surface consumed read-only
(`conf.rs` is not under `src/`) — the path of the `ipset` binary and the
`registered_users_set` descriptor `(name, type_name, maxelem)`. -/
structure Config where
  ipset_bin : List Char
  set_name : List Char
  set_type : List Char
  set_maxelem : Nat
deriving DecidableEq

/-- The outcomes the surrounding system supplies to the external
invocations the program makes: the set-creation call, the `add`/`del`
call (as a function of its argument vector), and the neighbour-table
query (as a function of its argument vector). -/
structure World where
  createRes : CmdOutcome
  ipsetRes : List (List Char) → CmdOutcome
  ipNeighRes : List (List Char) → CmdOutcome

/-- Trace entry: one external invocation performed by the engine. -/
inductive ExtCall where
  | ipsetCreate (args : List (List Char))
  | ipsetInvoke (args : List (List Char))
  | ipNeighInvoke (args : List (List Char))
deriving DecidableEq

/-- Rust `[&str]::join(" ")`. -/
def joinSpace : List (List Char) → List Char
  | [] => []
  | [x] => x
  | x :: y :: rest => x ++ ' ' :: joinSpace (y :: rest)

/-- Argument vector of the set-creation invocation
(`create -exist <name> <type> maxelem <n>`, `src/main.rs:54-59`). -/
def createArgs (cfg : Config) : List (List Char) :=
  ["create".toList, "-exist".toList, cfg.set_name, cfg.set_type,
   "maxelem".toList, (toString cfg.set_maxelem).toList]

/-- The error value `create_ipset_set` returns on any failure: the text
`Failed to create <name> in ipset`.  The underlying error (spawn
description or stderr) is only logged, not part of the returned value
(`src/main.rs:47-53`). -/
def createFailMsg (cfg : Config) : List Char :=
  "Failed to create ".toList ++ cfg.set_name ++ " in ipset".toList

/-- `create_ipset_set` (`src/main.rs:45-70`). -/
def create_ipset_set (cfg : Config) (w : World) : Except (List Char) Unit :=
  match w.createRes with
  | .spawnFailure _ => .error (createFailMsg cfg)
  | .exited true _ _ => .ok ()
  | .exited false _ _ => .error (createFailMsg cfg)

/-- The error value `spawn_ipset` returns when its own invocation fails:
`Failed to launch "<bin> <args>"`.  As in `create_ipset_set`, the spawn
description or stderr text is logged but not returned
(`src/main.rs:87-94`). -/
def launchFailMsg (cfg : Config) (args : List (List Char)) : List Char :=
  "Failed to launch \"".toList ++ cfg.ipset_bin ++ ' ' :: joinSpace args
    ++ "\"".toList

/-- `spawn_ipset` (`src/main.rs:79-108`) with an invocation trace: first
ensures the set exists via `create_ipset_set`, then runs `ipset` with the
given arguments. -/
def spawn_ipset_t (cfg : Config) (w : World) (args : List (List Char)) :
    Except (List Char) Unit × List ExtCall :=
  match create_ipset_set cfg w with
  | .error e => (.error e, [.ipsetCreate (createArgs cfg)])
  | .ok () =>
    (match w.ipsetRes args with
     | .spawnFailure _ => .error (launchFailMsg cfg args)
     | .exited true _ _ => .ok ()
     | .exited false _ _ => .error (launchFailMsg cfg args),
     [.ipsetCreate (createArgs cfg), .ipsetInvoke args])

/-- Result part of `spawn_ipset`. -/
def spawn_ipset (cfg : Config) (w : World) (args : List (List Char)) :
    Except (List Char) Unit :=
  (spawn_ipset_t cfg w args).1

/-- `filter_mac` (`src/main.rs:114-124`): first MAC-shaped token of the
neighbour-table output, or an error. -/
def filter_mac (output : List Char) : Except (List Char) (List Char) :=
  match firstMacMatch output with
  | some m => .ok m
  | none => .error "MAC cannot be found".toList

/-- Argument vector of the neighbour query (`ip n show to <ip>`). -/
def ipNeighArgs (ip : List Char) : List (List Char) :=
  ["n".toList, "show".toList, "to".toList, ip]

/-- The generic error value `get_mac` returns on every failure — spawn
failure, non-zero exit, or no MAC in the output (`src/main.rs:135-141`). -/
def getMacFailMsg (ip : List Char) : List Char :=
  "Failed to launch \"ip ".toList ++ joinSpace (ipNeighArgs ip)
    ++ "\"".toList

/-- `get_mac` (`src/main.rs:130-162`) with an invocation trace. -/
def get_mac_t (w : World) (ip : List Char) :
    Except (List Char) (List Char) × List ExtCall :=
  (match w.ipNeighRes (ipNeighArgs ip) with
   | .spawnFailure _ => .error (getMacFailMsg ip)
   | .exited true stdout _ =>
     match filter_mac (rustTrimRight stdout) with
     | .ok m => .ok m
     | .error _ => .error (getMacFailMsg ip)
   | .exited false _ _ => .error (getMacFailMsg ip),
   [.ipNeighInvoke (ipNeighArgs ip)])

/-- The `send_error` closure (`src/main.rs:172-174`): write
`1 <err trimmed right>\r\n`. -/
def sendError (err : List Char) : List Char :=
  "1 ".toList ++ rustTrimRight err ++ "\r\n".toList

/-- ASCII apostrophe, spelled by code point. -/
def apos : Char := Char.ofNat 39

/-- The bad-request message (quoted line, then the fixed text that the
request does not respect the protocol) (`src/main.rs:227-229`). -/
def badReqMsg (line : List Char) : List Char :=
  "\"".toList ++ line ++ "\": Request doesn".toList ++ apos ::
    "t respect the protocol".toList

/-- The full wire response sent for a bad request. -/
def badRequestResp (line : List Char) : List Char :=
  sendError (badReqMsg line)

/-- `compute_response` (`src/main.rs:166-233`) with an invocation trace:
parse the line with `re_action`, dispatch on the action character, and
produce the bytes written back on the stream. -/
def compute_response_t (cfg : Config) (w : World) (line : List Char) :
    List Char × List ExtCall :=
  match parseAction line with
  | none => (badRequestResp line, [])
  | some (action, arg) =>
    if action = 'a' || action = 'd' then
      match firstMacMatch arg with
      | none => (badRequestResp line, [])
      | some mac =>
        let cmd := if action = 'a' then "add".toList else "del".toList
        match spawn_ipset_t cfg w [cmd, "-exist".toList, cfg.set_name, mac] with
        | (.ok _, tr) => ("0\r\n".toList, tr)
        | (.error err, tr) => (sendError err, tr)
    else if action = 'm' then
      if is_ip_addr arg then
        match get_mac_t w arg with
        | (.ok mac, tr) => ("0 ".toList ++ mac ++ "\r\n".toList, tr)
        | (.error err, tr) => (sendError err, tr)
      else (sendError "Not an IP address".toList, [])
    else (badRequestResp line, [])

/-- Response part of `compute_response`. -/
def compute_response (cfg : Config) (w : World) (line : List Char) :
    List Char :=
  (compute_response_t cfg w line).1

/-- The line-accumulation loop of `handle_client` (`src/main.rs:239-256`):
push each byte as a character; on byte 10 trim the buffer, dispatch it as
one line and clear the buffer; at end of stream dispatch the trimmed
remainder when the buffer is non-empty.  Returns the dispatched lines in
order. -/
def clientLines : List Nat → List Char → List (List Char)
  | [], buf => if buf.length > 0 then [rustTrim buf] else []
  | b :: rest, buf =>
    let buf2 := buf ++ [Char.ofNat b]
    if b = 10 then rustTrim buf2 :: clientLines rest []
    else clientLines rest buf2

/-- `handle_client` on an error-free byte stream: the lines it dispatches
to `compute_response`. -/
def handle_client (bytes : List Nat) : List (List Char) :=
  clientLines bytes []

/-- The responses written back on the connection, one per dispatched
line. -/
def clientResponses (cfg : Config) (w : World) (bytes : List Nat) :
    List (List Char) :=
  (handle_client bytes).map (compute_response cfg w)

/-- `handle_client` over fallible reads: each element of the stream is
either a byte or a read error.  `b_result.unwrap()` panics on a read
error (`src/main.rs:242`), which unwinds the thread: modelled as `none`. -/
def clientLinesFallible : List (Except Unit Nat) → List Char →
    Option (List (List Char))
  | [], buf => some (if buf.length > 0 then [rustTrim buf] else [])
  | .error _ :: _, _ => none
  | .ok b :: rest, buf =>
    let buf2 := buf ++ [Char.ofNat b]
    if b = 10 then (clientLinesFallible rest []).map (rustTrim buf2 :: ·)
    else clientLinesFallible rest buf2

/-- `handle_client` on a fallible stream: `none` means the thread
panicked on an unwrapped read error. -/
def handle_client_io (reads : List (Except Unit Nat)) :
    Option (List (List Char)) :=
  clientLinesFallible reads []

/-- `2 ^ 32`, the modulus of the `u32` thread counter. -/
def u32Mod : Nat := 4294967296

/-- Gate counter value after the spawned closure of `listen_on_addr`
(`src/main.rs:291-303`) finishes, starting from the post-acquire counter
value: when `handle_client` returns, the closure decrements the counter;
when it panics (unwrapped read or write error), the unwind skips the
decrement and the counter keeps its post-acquire value. -/
def thread_body_final_count (count : Nat) (reads : List (Except Unit Nat)) :
    Nat :=
  match handle_client_io reads with
  | some _ => (count + (u32Mod - 1)) % u32Mod
  | none => count

/-- State of the admission gate: the shared `u32` counter behind the
mutex, plus the number of handlers that have acquired the gate and not
yet run their release (the program structure guarantees each spawned
handler decrements at most once, after its own acquire). -/
structure GateState where
  count : Nat
  active : Nat
deriving DecidableEq

/-- The two atomic sections touching the counter (`src/main.rs:281-302`):
acquire waits while `count ≥ limit` and then increments under the lock;
release decrements under the lock.  Arithmetic is `u32` arithmetic. -/
inductive GateStep (limit : Nat) : GateState → GateState → Prop
  | acquire (s : GateState) : s.count < limit →
      GateStep limit s ⟨(s.count + 1) % u32Mod, s.active + 1⟩
  | release (s : GateState) : 0 < s.active →
      GateStep limit s ⟨(s.count + (u32Mod - 1)) % u32Mod, s.active - 1⟩

/-- States reachable from process start (counter `0`, no handlers). -/
inductive GateReachable (limit : Nat) : GateState → Prop
  | init : GateReachable limit ⟨0, 0⟩
  | step {s t : GateState} : GateReachable limit s → GateStep limit s t →
      GateReachable limit t

/-- Substring helpers used to state what an error message carries. -/
def beginsWith : List Char → List Char → Bool
  | [], _ => true
  | _ :: _, [] => false
  | a :: as, b :: bs => a = b && beginsWith as bs

/-- Does `needle` occur as a contiguous substring of the second list? -/
def containsSub (needle : List Char) : List Char → Bool
  | [] => beginsWith needle []
  | hay :: rest => beginsWith needle (hay :: rest) || containsSub needle rest

/-- A concrete configuration used to instantiate closed statements. -/
def cfg0 : Config :=
  ⟨"ipset".toList, "users".toList, "hash:mac".toList, 65536⟩

/-- A world in which every external invocation succeeds (empty output). -/
def okWorld : World :=
  ⟨.exited true [] [], fun _ => .exited true [] [],
   fun _ => .exited true [] []⟩

/-- A world in which the `add`/`del` invocation exits non-zero with
stderr text `boom`. -/
def boomWorld : World :=
  ⟨.exited true [] [], fun _ => .exited false [] "boom".toList,
   fun _ => .exited true [] []⟩

/-- A world in which every invocation succeeds and the neighbour query
prints the MAC `aa:bb:cc:dd:ee:ff`. -/
def macWorld : World :=
  ⟨.exited true [] [], fun _ => .exited true [] [],
   fun _ => .exited true "aa:bb:cc:dd:ee:ff".toList []⟩

theorem rustTrimRight_append_ws (l : List Char) (c : Char)
    (h : isRustWhitespace c = true) :
    rustTrimRight (l ++ [c]) = rustTrimRight l := by
  simp [rustTrimRight, List.dropWhile, h]

theorem rustTrim_append_newline (l : List Char) :
    rustTrim (l ++ [Char.ofNat 10]) = rustTrim l := by
  simp [rustTrim, rustTrimRight_append_ws l (Char.ofNat 10) (by decide)]

theorem rustTrimRight_append_nonws (l : List Char) (c : Char)
    (h : isRustWhitespace c = false) :
    rustTrimRight (l ++ [c]) = l ++ [c] := by
  simp [rustTrimRight, List.dropWhile, h]

/-- The bad-request message never ends in whitespace, so the `trim_right`
inside `send_error` leaves it intact and the wire response has the exact
literal shape. -/
theorem badRequestResp_eq (line : List Char) :
    badRequestResp line
      = "1 \"".toList ++ line ++ "\": Request doesn".toList ++ apos ::
          "t respect the protocol\r\n".toList := by
  have h1 : badReqMsg line
      = ("\"".toList ++ line ++ "\": Request doesn".toList ++ apos ::
          "t respect the protoco".toList) ++ ['l'] := by
    simp [badReqMsg]
  have h2 : rustTrimRight (badReqMsg line) = badReqMsg line := by
    rw [h1, rustTrimRight_append_nonws _ _ (by decide)]
  unfold badRequestResp sendError
  rw [h2]
  simp [badReqMsg]

theorem clientLines_split (xs rest : List Nat) (h : ¬ 10 ∈ xs) :
    ∀ buf, clientLines (xs ++ 10 :: rest) buf
      = rustTrim (buf ++ xs.map Char.ofNat) :: clientLines rest [] := by
  induction xs with
  | nil =>
    intro buf
    simp [clientLines, rustTrim_append_newline]
  | cons x xs ih =>
    intro buf
    have hx : ¬ (x = 10) := fun hc => h (by simp [hc])
    have hxs : ¬ 10 ∈ xs := fun hc => h (by simp [hc])
    rw [List.cons_append,
      show clientLines (x :: (xs ++ 10 :: rest)) buf
        = clientLines (xs ++ 10 :: rest) (buf ++ [Char.ofNat x]) from by
          simp [clientLines, hx],
      ih hxs]
    simp

theorem clientLines_noNewline (xs : List Nat) (h : ¬ 10 ∈ xs) :
    ∀ buf, clientLines xs buf
      = if buf = [] ∧ xs = [] then []
        else [rustTrim (buf ++ xs.map Char.ofNat)] := by
  induction xs with
  | nil =>
    intro buf
    rcases hb : buf with _ | ⟨c, cs⟩ <;> simp [clientLines]
  | cons x xs ih =>
    intro buf
    have hx : ¬ (x = 10) := fun hc => h (by simp [hc])
    have hxs : ¬ 10 ∈ xs := fun hc => h (by simp [hc])
    simp only [clientLines, hx, if_false, ih hxs]
    simp

theorem clientLines_append10 (p ys : List Nat) :
    ∀ buf, clientLines ((p ++ [10]) ++ ys) buf
      = clientLines (p ++ [10]) buf ++ clientLines ys [] := by
  induction p with
  | nil =>
    intro buf
    simp [clientLines]
  | cons x p ih =>
    intro buf
    have hstep : ∀ (ys2 : List Nat) (buf2 : List Char),
        clientLines (x :: ys2) buf2
          = if x = 10 then
              rustTrim (buf2 ++ [Char.ofNat x]) :: clientLines ys2 []
            else clientLines ys2 (buf2 ++ [Char.ofNat x]) := by
      intro ys2 buf2
      by_cases hx : x = 10 <;> simp [clientLines, hx]
    by_cases hx : x = 10
    · rw [List.cons_append, List.cons_append, hstep, hstep, if_pos hx,
        if_pos hx, ih, List.cons_append]
    · rw [List.cons_append, List.cons_append, hstep, hstep, if_neg hx,
        if_neg hx, ih]

theorem create_ipset_set_ok (cfg : Config) (w : World)
    (hc : w.createRes.ok = true) :
    create_ipset_set cfg w = .ok () := by
  rcases h : w.createRes with d | ⟨s, so, se⟩
  · rw [h] at hc; simp [CmdOutcome.ok] at hc
  · cases s
    · rw [h] at hc; simp [CmdOutcome.ok] at hc
    · simp [create_ipset_set, h]

theorem spawn_ipset_t_ok (cfg : Config) (w : World)
    (args : List (List Char)) (hc : w.createRes.ok = true)
    (hi : (w.ipsetRes args).ok = true) :
    spawn_ipset_t cfg w args
      = (.ok (), [.ipsetCreate (createArgs cfg), .ipsetInvoke args]) := by
  rcases h : w.ipsetRes args with d | ⟨s, so, se⟩
  · rw [h] at hi; simp [CmdOutcome.ok] at hi
  · cases s
    · rw [h] at hi; simp [CmdOutcome.ok] at hi
    · simp [spawn_ipset_t, create_ipset_set_ok cfg w hc, h]

/-- Any line the action pattern rejects, and any accepted line whose
action character is none of `a`, `d`, `m`, produces the bad-request
response and invokes no external command. -/
theorem compute_response_bad (cfg : Config) (w : World) (line : List Char)
    (h : ∀ a arg, parseAction line = some (a, arg) →
      a ≠ 'a' ∧ a ≠ 'd' ∧ a ≠ 'm') :
    compute_response_t cfg w line = (badRequestResp line, []) := by
  rcases hp : parseAction line with _ | ⟨a, arg⟩
  · simp [compute_response_t, hp]
  · obtain ⟨h1, h2, h3⟩ := h a arg hp
    simp [compute_response_t, hp, h1, h2, h3]

/-- `launchFailMsg` ends in a quote character, so `trim_right` leaves it
unchanged. -/
theorem rustTrimRight_launchFailMsg (cfg : Config)
    (args : List (List Char)) :
    rustTrimRight (launchFailMsg cfg args) = launchFailMsg cfg args := by
  have h : launchFailMsg cfg args
      = ("Failed to launch \"".toList ++ cfg.ipset_bin
          ++ ' ' :: joinSpace args) ++ ['\"'] := by
    simp [launchFailMsg]
  rw [h, rustTrimRight_append_nonws _ _ (by decide)]

/-- C1: every line whose action character is `m` and whose argument is
not a syntactically valid IPv4 or IPv6 literal is answered with exactly
`1 Not an IP address\r\n`: the `m` arm tests `is_ip_addr` and sends that
fixed error on failure. -/
theorem c1_lookup_invalid_ip_response (cfg : Config) (w : World)
    (line arg : List Char)
    (hp : parseAction line = some ('m', arg))
    (hip : is_ip_addr arg = false) :
    compute_response cfg w line = "1 Not an IP address\r\n".toList := by
  have h : compute_response_t cfg w line
      = (sendError "Not an IP address".toList, []) := by
    unfold compute_response_t
    rw [hp]
    simp [hip]
  unfold compute_response
  rw [h]
  decide

/-- Witness for C1 at the spec example `m 300.1.1.1`. -/
theorem c1_witness :
    parseAction "m 300.1.1.1".toList = some ('m', "300.1.1.1".toList)
      ∧ is_ip_addr "300.1.1.1".toList = false
      ∧ compute_response cfg0 okWorld "m 300.1.1.1".toList
        = "1 Not an IP address\r\n".toList :=
  ⟨rfl, by decide,
   c1_lookup_invalid_ip_response cfg0 okWorld "m 300.1.1.1".toList
     "300.1.1.1".toList rfl (by decide)⟩

/-- C2: a line `d <arg>` whose argument matches the MAC pattern invokes
the backing `del` with the matched MAC and, when that invocation (and
the implicit set creation) succeeds, is answered with exactly `0\r\n`;
a line `m <arg>` with a valid IP literal whose lookup succeeds returning
a MAC is answered with exactly `0 <mac>\r\n`. -/
theorem c2_remove_and_lookup_success (cfg : Config) (w : World) :
    (∀ line arg mac, parseAction line = some ('d', arg) →
        firstMacMatch arg = some mac →
        w.createRes.ok = true →
        (w.ipsetRes ["del".toList, "-exist".toList, cfg.set_name,
          mac]).ok = true →
        compute_response_t cfg w line
          = ("0\r\n".toList,
             [.ipsetCreate (createArgs cfg),
              .ipsetInvoke ["del".toList, "-exist".toList, cfg.set_name,
                mac]]))
      ∧ (∀ line arg mac stdout se, parseAction line = some ('m', arg) →
          is_ip_addr arg = true →
          w.ipNeighRes (ipNeighArgs arg) = .exited true stdout se →
          firstMacMatch (rustTrimRight stdout) = some mac →
          compute_response cfg w line
            = "0 ".toList ++ mac ++ "\r\n".toList) := by
  constructor
  · intro line arg mac hp hm hc hi
    have hshape : compute_response_t cfg w line
        = (match spawn_ipset_t cfg w ["del".toList, "-exist".toList,
              cfg.set_name, mac] with
           | (.ok _, tr) => ("0\r\n".toList, tr)
           | (.error err, tr) => (sendError err, tr)) := by
      unfold compute_response_t
      rw [hp]
      simp [hm]
    rw [hshape, spawn_ipset_t_ok cfg w _ hc hi]
  · intro line arg mac stdout se hp hip hn hm
    have h : compute_response_t cfg w line
        = ("0 ".toList ++ mac ++ "\r\n".toList,
           [.ipNeighInvoke (ipNeighArgs arg)]) := by
      unfold compute_response_t
      rw [hp]
      simp [hip, get_mac_t, hn, filter_mac, hm]
    unfold compute_response
    rw [h]

/-- Witness for C2: `d 00:11:22:33:44:55` against an all-succeeding
world, and `m 1.2.3.4` against a world whose neighbour query prints
`aa:bb:cc:dd:ee:ff`. -/
theorem c2_witness :
    compute_response_t cfg0 okWorld "d 00:11:22:33:44:55".toList
        = ("0\r\n".toList,
           [.ipsetCreate (createArgs cfg0),
            .ipsetInvoke ["del".toList, "-exist".toList, cfg0.set_name,
              "00:11:22:33:44:55".toList]])
      ∧ compute_response cfg0 macWorld "m 1.2.3.4".toList
        = "0 ".toList ++ "aa:bb:cc:dd:ee:ff".toList ++ "\r\n".toList :=
  ⟨(c2_remove_and_lookup_success cfg0 okWorld).1
      "d 00:11:22:33:44:55".toList "00:11:22:33:44:55".toList
      "00:11:22:33:44:55".toList rfl rfl rfl rfl,
   (c2_remove_and_lookup_success cfg0 macWorld).2
      "m 1.2.3.4".toList "1.2.3.4".toList "aa:bb:cc:dd:ee:ff".toList
      "aa:bb:cc:dd:ee:ff".toList [] rfl (by decide) rfl rfl⟩

/-- C3: the spec says the gate release step runs whether the handler
finishes normally or on a read/write error.  On the code, an I/O error
makes `handle_client` panic through `unwrap`, the unwind skips the
decrement that follows `handle_client` in the spawned closure, and the
counter keeps its post-acquire value (here `1` instead of returning to
`0`); only an error-free stream reaches the decrement. -/
theorem c3_no_release_on_read_error :
    handle_client_io [Except.error ()] = none
      ∧ thread_body_final_count 1 [Except.error ()] = 1
      ∧ thread_body_final_count 1 [Except.ok 10] = 0 := by
  refine ⟨rfl, rfl, ?_⟩
  decide

/-- C5: a line `a 00:11:22:33:44:55` whose backing `add` invocation (and
the preceding set-creation invocation) succeeds is answered with exactly
`0\r\n`, no payload. -/
theorem c5_add_success_response (cfg : Config) (w : World)
    (hc : w.createRes.ok = true)
    (hi : (w.ipsetRes ["add".toList, "-exist".toList, cfg.set_name,
        "00:11:22:33:44:55".toList]).ok = true) :
    compute_response cfg w "a 00:11:22:33:44:55".toList
      = "0\r\n".toList := by
  have hp : compute_response_t cfg w "a 00:11:22:33:44:55".toList
      = (match spawn_ipset_t cfg w ["add".toList, "-exist".toList,
            cfg.set_name, "00:11:22:33:44:55".toList] with
         | (.ok _, tr) => ("0\r\n".toList, tr)
         | (.error err, tr) => (sendError err, tr)) := rfl
  unfold compute_response
  rw [hp, spawn_ipset_t_ok cfg w _ hc hi]

/-- Witness for C5 at a concrete configuration and an all-succeeding
world. -/
theorem c5_witness :
    okWorld.createRes.ok = true
      ∧ (okWorld.ipsetRes ["add".toList, "-exist".toList, cfg0.set_name,
          "00:11:22:33:44:55".toList]).ok = true
      ∧ compute_response cfg0 okWorld "a 00:11:22:33:44:55".toList
        = "0\r\n".toList :=
  ⟨rfl, rfl, c5_add_success_response cfg0 okWorld rfl rfl⟩

/-- C7: in every reachable state of the gate the counter equals the
number of handlers holding the gate (so a release only undoes a matching
acquire and the `u32` decrement cannot underflow) and never exceeds the
configured limit; being a `Nat`, it is also never negative. -/
theorem c7_gate_counter_invariant (limit : Nat) (hl : limit < u32Mod) :
    ∀ s, GateReachable limit s → s.count = s.active ∧ s.count ≤ limit := by
  intro s h
  induction h with
  | init => exact ⟨rfl, Nat.zero_le _⟩
  | step hr hs ih =>
    obtain ⟨hca, hcl⟩ := ih
    cases hs with
    | acquire hlt =>
      refine ⟨?_, ?_⟩ <;> dsimp only <;> unfold u32Mod at * <;> omega
    | release hpos =>
      refine ⟨?_, ?_⟩ <;> dsimp only <;> unfold u32Mod at * <;> omega

/-- Witness for C7: the state after one acquire under limit `1`. -/
theorem c7_witness :
    (⟨(0 + 1) % u32Mod, 0 + 1⟩ : GateState).count
        = (⟨(0 + 1) % u32Mod, 0 + 1⟩ : GateState).active
      ∧ (⟨(0 + 1) % u32Mod, 0 + 1⟩ : GateState).count ≤ 1 :=
  c7_gate_counter_invariant 1 (by decide) _
    (GateReachable.step GateReachable.init
      (GateStep.acquire ⟨0, 0⟩ (by decide)))

/-- C4 counterexample: the claim says an uppercase MAC such as
`AA:BB:CC:DD:EE:FF` matches the MAC pattern and is not treated as a
malformed request; on the code the pattern `[a-f\d]` has no `(?i)` flag,
the argument contains no match, and the request gets the bad-request
response. -/
theorem c4_counterexample :
    compute_response_t cfg0 okWorld "a AA:BB:CC:DD:EE:FF".toList
        = (badRequestResp "a AA:BB:CC:DD:EE:FF".toList, [])
      ∧ firstMacMatch "AA:BB:CC:DD:EE:FF".toList = none :=
  ⟨rfl, rfl⟩

/-- C4 amended: MAC validation for the `a` and `d` actions is
case-sensitive, not case-insensitive — the character class accepts only
`0-9` and lowercase `a-f`, so for either action an uppercase MAC
argument is rejected as malformed while the same MAC written in
lowercase is accepted. -/
theorem c4_mac_validation_lowercase_only :
    (∀ c, c ∈ "ABCDEF".toList → isMacHexDigit c = false)
      ∧ (∀ (cfg : Config) (w : World),
          compute_response cfg w "a AA:BB:CC:DD:EE:FF".toList
            = badRequestResp "a AA:BB:CC:DD:EE:FF".toList
          ∧ compute_response cfg w "d AA:BB:CC:DD:EE:FF".toList
            = badRequestResp "d AA:BB:CC:DD:EE:FF".toList)
      ∧ compute_response cfg0 okWorld "a aa:bb:cc:dd:ee:ff".toList
        = "0\r\n".toList
      ∧ compute_response cfg0 okWorld "d aa:bb:cc:dd:ee:ff".toList
        = "0\r\n".toList := by
  refine ⟨by decide, fun cfg w => ⟨rfl, rfl⟩, rfl, rfl⟩

/-- Witness for the amended statement of C4 at the character `A`. -/
theorem c4_witness :
    ('A' ∈ "ABCDEF".toList) ∧ isMacHexDigit 'A' = false :=
  ⟨by decide, c4_mac_validation_lowercase_only.1 'A' (by decide)⟩

/-- C6: a line that fails the request shape, or whose action character
is not one of the handled ones, is answered with exactly
the bad-request line (status `1`, the quoted line, the fixed protocol text, CRLF), and the handler
goes on to read and dispatch the following lines of the stream. -/
theorem c6_bad_request_keeps_connection (cfg : Config) (w : World)
    (bytes rest : List Nat) (hn : ¬ 10 ∈ bytes)
    (h : ∀ a arg,
        parseAction (rustTrim (bytes.map Char.ofNat)) = some (a, arg) →
        a ≠ 'a' ∧ a ≠ 'd' ∧ a ≠ 'm') :
    clientResponses cfg w (bytes ++ 10 :: rest)
        = badRequestResp (rustTrim (bytes.map Char.ofNat))
            :: clientResponses cfg w rest
      ∧ badRequestResp (rustTrim (bytes.map Char.ofNat))
        = "1 \"".toList ++ rustTrim (bytes.map Char.ofNat)
            ++ "\": Request doesn".toList ++ apos ::
              "t respect the protocol\r\n".toList := by
  refine ⟨?_, badRequestResp_eq _⟩
  unfold clientResponses handle_client
  rw [clientLines_split bytes rest hn []]
  rw [List.map_cons, List.nil_append]
  have hb : compute_response cfg w (rustTrim (bytes.map Char.ofNat))
      = badRequestResp (rustTrim (bytes.map Char.ofNat)) := by
    unfold compute_response
    rw [compute_response_bad cfg w _ h]
  rw [hb]

/-- Witness for C6: the unknown action line `q x` followed by stream
end. -/
theorem c6_witness :
    (¬ 10 ∈ [113, 32, 120])
      ∧ clientResponses cfg0 okWorld ([113, 32, 120] ++ 10 :: [])
        = badRequestResp (rustTrim ([113, 32, 120].map Char.ofNat))
            :: clientResponses cfg0 okWorld [] :=
  ⟨by decide,
   (c6_bad_request_keeps_connection cfg0 okWorld [113, 32, 120] []
      (by decide)
      (by
        intro a arg hpa
        have h2 : (('q' : Char), ['x']) = (a, arg) := Option.some.inj hpa
        cases h2
        exact ⟨by decide, by decide, by decide⟩)).1⟩

/-- C8 counterexample: the claim says the error returned to the engine
carries the standard-error text of the tool; here the tool exits non-zero
with stderr `boom`, yet the returned error is the generic launch message
and does not contain `boom`. -/
theorem c8_counterexample :
    spawn_ipset cfg0 boomWorld ["add".toList, "-exist".toList,
        cfg0.set_name, "aa:bb:cc:dd:ee:ff".toList]
      = .error (launchFailMsg cfg0 ["add".toList, "-exist".toList,
          cfg0.set_name, "aa:bb:cc:dd:ee:ff".toList])
      ∧ containsSub "boom".toList
          (launchFailMsg cfg0 ["add".toList, "-exist".toList,
            cfg0.set_name, "aa:bb:cc:dd:ee:ff".toList]) = false := by
  refine ⟨rfl, ?_⟩
  decide

/-- C8 amended: on a non-zero exit or spawn failure of the tool, the
error value handed back to the protocol engine is a fixed generic
message naming the attempted invocation (`Failed to launch "<bin>
<args>"`, or `Failed to create <set> in ipset` when the implicit
creation step failed); the stderr text and the spawn failure description
are only logged, never part of the returned error. -/
theorem c8_error_message_generic (cfg : Config)
    (nr : List (List Char) → CmdOutcome) (args : List (List Char))
    (so se d cso cse : List Char) :
    spawn_ipset cfg
        ⟨.exited true cso cse, fun _ => .exited false so se, nr⟩ args
      = .error (launchFailMsg cfg args)
      ∧ spawn_ipset cfg
          ⟨.exited true cso cse, fun _ => .spawnFailure d, nr⟩ args
        = .error (launchFailMsg cfg args)
      ∧ spawn_ipset cfg
          ⟨.spawnFailure d, fun _ => .exited false so se, nr⟩ args
        = .error (createFailMsg cfg)
      ∧ spawn_ipset cfg
          ⟨.exited false cso cse, fun _ => .exited false so se, nr⟩ args
        = .error (createFailMsg cfg) :=
  ⟨rfl, rfl, rfl, rfl⟩

/-- C9: when the stream ends with non-empty unterminated content, that
content is trimmed and dispatched exactly once as a final line; when the
buffer is empty at end of stream nothing extra is dispatched. -/
theorem c9_trailing_content_dispatched_once (pre tl : List Nat)
    (hb : pre = [] ∨ ∃ p, pre = p ++ [10]) (ht : ¬ 10 ∈ tl) :
    handle_client (pre ++ tl)
      = handle_client pre
          ++ (if tl = [] then [] else [rustTrim (tl.map Char.ofNat)]) := by
  rcases hb with rfl | ⟨p, rfl⟩
  · unfold handle_client
    rw [List.nil_append, clientLines_noNewline tl ht []]
    by_cases htl : tl = [] <;> simp [htl, clientLines]
  · unfold handle_client
    rw [clientLines_append10 p tl [], clientLines_noNewline tl ht []]
    by_cases htl : tl = [] <;> simp [htl]

/-- Witness for C9: the line `a\n` followed by the unterminated byte
`m`. -/
theorem c9_witness :
    (¬ 10 ∈ [109])
      ∧ handle_client ([97, 10] ++ [109])
        = handle_client [97, 10]
            ++ (if ([109] : List Nat) = [] then []
                else [rustTrim ([109].map Char.ofNat)]) :=
  ⟨by decide,
   c9_trailing_content_dispatched_once [97, 10] [109]
     (Or.inr ⟨[97], rfl⟩) (by decide)⟩

/-- Whatever the outcome of the gated `ipset` invocation, the engine
performed it (the trace records `create` then the invocation) and the
response is never the bad-request response: it is `0\r\n` or a
`1 Failed to launch ...` error line. -/
theorem spawn_branch_response (cfg : Config) (w : World)
    (line : List Char) (args : List (List Char))
    (hc : w.createRes.ok = true)
    (hshape : compute_response_t cfg w line
      = (match spawn_ipset_t cfg w args with
         | (.ok _, tr) => ("0\r\n".toList, tr)
         | (.error err, tr) => (sendError err, tr))) :
    (compute_response_t cfg w line).2
        = [.ipsetCreate (createArgs cfg), .ipsetInvoke args]
      ∧ compute_response cfg w line ≠ badRequestResp line := by
  rcases hi : w.ipsetRes args with d | ⟨s, so, se⟩
  · have hsp : spawn_ipset_t cfg w args
        = (.error (launchFailMsg cfg args),
           [.ipsetCreate (createArgs cfg), .ipsetInvoke args]) := by
      unfold spawn_ipset_t
      rw [create_ipset_set_ok cfg w hc, hi]
    refine ⟨?_, ?_⟩
    · rw [hshape, hsp]
    · unfold compute_response
      rw [hshape, hsp]
      simp only []
      rw [show sendError (launchFailMsg cfg args)
          = "1 ".toList ++ launchFailMsg cfg args ++ "\r\n".toList from by
            unfold sendError
            rw [rustTrimRight_launchFailMsg],
        badRequestResp_eq]
      simp [launchFailMsg]
  · cases s
    · have hsp : spawn_ipset_t cfg w args
          = (.error (launchFailMsg cfg args),
             [.ipsetCreate (createArgs cfg), .ipsetInvoke args]) := by
        unfold spawn_ipset_t
        rw [create_ipset_set_ok cfg w hc, hi]
      refine ⟨?_, ?_⟩
      · rw [hshape, hsp]
      · unfold compute_response
        rw [hshape, hsp]
        simp only []
        rw [show sendError (launchFailMsg cfg args)
            = "1 ".toList ++ launchFailMsg cfg args ++ "\r\n".toList from by
              unfold sendError
              rw [rustTrimRight_launchFailMsg],
          badRequestResp_eq]
        simp [launchFailMsg]
    · have hsp := spawn_ipset_t_ok cfg w args hc (by rw [hi]; rfl)
      refine ⟨?_, ?_⟩
      · rw [hshape, hsp]
      · unfold compute_response
        rw [hshape, hsp]
        simp only []
        rw [badRequestResp_eq]
        simp

/-- C10: for the `a` and `d` actions, MAC matching is unanchored within
the argument: any argument containing a MAC-shaped substring is accepted
— the engine invokes the backend rather than answering with the
bad-request response — and the leftmost MAC-shaped substring, not the
whole argument, is what the `add`/`del` invocation receives. -/
theorem c10_mac_unanchored_first_match (cfg : Config) (w : World)
    (line arg mac : List Char) (act : Char)
    (hp : parseAction line = some (act, arg))
    (ha : act = 'a' ∨ act = 'd')
    (hm : firstMacMatch arg = some mac)
    (hc : w.createRes.ok = true) :
    (compute_response_t cfg w line).2
        = [.ipsetCreate (createArgs cfg),
           .ipsetInvoke [if act = 'a' then "add".toList else "del".toList,
             "-exist".toList, cfg.set_name, mac]]
      ∧ compute_response cfg w line ≠ badRequestResp line := by
  refine spawn_branch_response cfg w line _ hc ?_
  rcases ha with rfl | rfl <;>
    · unfold compute_response_t
      rw [hp]
      simp [hm]

/-- Witness for C10: the argument `xx00:11:22:33:44:55yy` is accepted
for both actions `a` and `d`, and the backend receives its leftmost
MAC-shaped substring `00:11:22:33:44:55`, not the whole argument. -/
theorem c10_witness :
    firstMacMatch "xx00:11:22:33:44:55yy".toList
        = some "00:11:22:33:44:55".toList
      ∧ (compute_response_t cfg0 okWorld
          "a xx00:11:22:33:44:55yy".toList).2
        = [.ipsetCreate (createArgs cfg0),
           .ipsetInvoke [if ('a' : Char) = 'a' then "add".toList
               else "del".toList,
             "-exist".toList, cfg0.set_name, "00:11:22:33:44:55".toList]]
      ∧ (compute_response_t cfg0 okWorld
          "d xx00:11:22:33:44:55yy".toList).2
        = [.ipsetCreate (createArgs cfg0),
           .ipsetInvoke [if ('d' : Char) = 'a' then "add".toList
               else "del".toList,
             "-exist".toList, cfg0.set_name, "00:11:22:33:44:55".toList]] :=
  ⟨rfl,
   (c10_mac_unanchored_first_match cfg0 okWorld
      "a xx00:11:22:33:44:55yy".toList "xx00:11:22:33:44:55yy".toList
      "00:11:22:33:44:55".toList 'a' rfl (Or.inl rfl) rfl rfl).1,
   (c10_mac_unanchored_first_match cfg0 okWorld
      "d xx00:11:22:33:44:55yy".toList "xx00:11:22:33:44:55yy".toList
      "00:11:22:33:44:55".toList 'd' rfl (Or.inr rfl) rfl rfl).1⟩
